import Mathlib

/-!
Shallow embedding of the incremental DPO dataset generator
(`scripts/dataset-cohere-dpo.py`, class `GastronomiaDPOGenerator`).

Python dictionaries with known keys become structures; optional keys
(accessed with `.get`) become `Option` fields; `dict` lookups with a
default become association-list lookups with a default.  The external
chat completion service is a black box and is modelled as a function
from (messages, max_tokens) to `Option String`, where `none` models any
exception raised by the call (the source wraps each call in
`try/except`).  File I/O errors are not modelled except where a claim
is about them: the session log is a Lean list that `append` extends.
Sampling temperature is a float constant never inspected by the code
and is omitted from the service request.
-/

namespace DPOGen

/-- One entry of a Python `messages` list: `{"role": ..., "content": ...}`. -/
structure Msg where
  role : String
  content : String
deriving DecidableEq, Repr

/-- A JSON-ish metadata value: the generator only ever stores strings and
integers in `metadata`. -/
inductive MVal where
  | str : String → MVal
  | int : Int → MVal
deriving DecidableEq, Repr

/-- The `DPOPair` dataclass: messages, chosen, rejected, metadata.
`metadata` is a dict with string keys, modelled as an association list. -/
structure DPOPair where
  messages : List Msg
  chosen : String
  rejected : String
  metadata : List (String × MVal)
deriving DecidableEq, Repr

/-- Key lookup in a metadata dict (first match, as keys are unique). -/
def mlookup : List (String × MVal) → String → Option MVal
  | [], _ => none
  | (k, v) :: rest, key => if k == key then some v else mlookup rest key

/-- A recipe record.  `id`, `valor_nutricional`, `categoria`, `pais` are read
with `.get` in the source and hence may be absent; the remaining fields are
read with direct subscripts on every path that uses the recipe. -/
structure Recipe where
  id : Option Int
  nombre : String
  ingredientes : List String
  pasos : List String
  tiempo : String
  dificultad : String
  racion : String
  valor_nutricional : Option String
  categoria : Option String
  pais : Option String
deriving Repr

/-- One entry of the question bank file: all four keys are read with `.get`
and may be absent. -/
structure QuestionItem where
  recipe_id : Option Int
  questions : Option String
  questions_category : Option String
  question_type : Option String
deriving DecidableEq, Repr

/-- Association-list lookup with a default, modelling `dict.get(key, default)`
for the fixed string-to-string mapping tables. -/
def lookupD : List (String × String) → String → String → String
  | [], _, default => default
  | (k, v) :: rest, key, default => if k == key then v else lookupD rest key default

/-- `self.category_mapping` (constructor, lines 46-56): question-bank category
labels to internal category names. -/
def category_mapping : List (String × String) :=
  [("General", "basic_recipe"),
   ("Ingredientes y preparación", "ingredients"),
   ("Técnicas", "cooking_techniques"),
   ("Tiempo y planificación", "time_and_planning"),
   ("Información nutricional", "nutritional_info"),
   ("Porciones", "scaling_portions"),
   ("Solución de problemas", "troubleshooting"),
   ("Contexto cultural", "cultural_context"),
   ("Opción múltiple", "multiple_choice")]

/-- `self.system_messages` (constructor, lines 60-76): persona name to system
prompt text. -/
def system_messages : List (String × String) :=
  [("recipe_instructions", "Eres un chef instructor especializado en técnicas culinarias internacionales. Explicas métodos paso a paso con precisión y claridad didáctica, adaptándote a diferentes tradiciones gastronómicas del mundo."),
   ("ingredient_knowledge", "Eres un experto en ingredientes de cocina internacional, conoces sus propiedades, usos tradicionales y sustituciones apropiadas en diferentes culturas gastronómicas del mundo."),
   ("technique_questions", "Eres un maestro culinario especializado en técnicas de cocción internacionales, con expertise en tiempos, temperaturas y métodos tradicionales de diversas culturas gastronómicas."),
   ("cultural_context", "Eres un historiador gastronómico internacional que conoces el origen, evolución y significado cultural de platos tradicionales de diferentes países y regiones del mundo."),
   ("troubleshooting", "Eres un chef experto especializado en solucionar errores comunes en la cocina internacional y optimizar resultados culinarios para recetas de diferentes tradiciones gastronómicas."),
   ("nutritional_expert", "Eres un nutricionista especializado en cocina internacional, conoces los valores nutricionales y beneficios de ingredientes de diferentes culturas y tradiciones gastronómicas del mundo."),
   ("multiple_choice_expert", "Eres un chef educador especializado en gastronomía internacional. Respondes preguntas de opción múltiple con explicaciones detalladas sobre por qué cada opción es correcta o incorrecta, considerando diferentes tradiciones culinarias."),
   ("base_expert", "Eres un chef experto especializado en cocina internacional con más de 20 años de experiencia. Tienes conocimiento profundo sobre ingredientes globales, técnicas tradicionales de diferentes culturas y la evolución de la gastronomía mundial.")]

/-- `_select_system_message` (lines 154-169): category to persona name with
`base_expert` as default, then a direct dict access into `system_messages`
(every target of the inner mapping and the default are keys, so the access
never raises; `""` is an unreachable fallback of the lookup model). -/
def select_category_mapping : List (String × String) :=
  [("basic_recipe", "recipe_instructions"),
   ("ingredients", "ingredient_knowledge"),
   ("cooking_techniques", "technique_questions"),
   ("cultural_context", "cultural_context"),
   ("troubleshooting", "troubleshooting"),
   ("nutritional_info", "nutritional_expert"),
   ("time_and_planning", "recipe_instructions"),
   ("scaling_portions", "recipe_instructions"),
   ("multiple_choice", "multiple_choice_expert")]

def select_system_message (category : String) : String :=
  let message_type := lookupD select_category_mapping category "base_expert"
  lookupD system_messages message_type ""

/-- `validate_dpo_pair_object` (lines 318-350).  Python truthiness of the four
fields (`not dpo_pair.messages` etc.) is emptiness of list / string / dict.
The structure fields always carry `role`, so the `KeyError` path of the
source's `except` clause is unreachable in the model. -/
def validate_dpo_pair_object (p : DPOPair) : Bool :=
  if p.messages.isEmpty || p.chosen.isEmpty || p.rejected.isEmpty || p.metadata.isEmpty then
    false
  else if !(match p.messages with
            | [m0, m1] => m0.role == "system" && m1.role == "user"
            | _ => false) then
    false
  else if p.chosen.length < 50 || p.rejected.length < 20 then
    false
  else if p.chosen == p.rejected then
    false
  else if !(["recipe_id", "recipe_name", "category", "context"].all
              (fun field => p.metadata.any (fun kv => kv.1 == field))) then
    false
  else
    true

/-- One line of the session JSONL file, as written by
`save_dpo_pair_incremental` (lines 298-305): the pair plus a timestamp and
the session id. -/
structure SavedPair where
  messages : List Msg
  chosen : String
  rejected : String
  metadata : List (String × MVal)
  timestamp : String
  session_id : String
deriving DecidableEq, Repr

/-- The `pair_dict` built at lines 298-305. -/
def serialize_pair (p : DPOPair) (timestamp session_id : String) : SavedPair :=
  ⟨p.messages, p.chosen, p.rejected, p.metadata, timestamp, session_id⟩

/-- `save_dpo_pair_incremental` (lines 290-316): validate, and on success
append one serialized line to the session log; return whether the write
occurred together with the new log contents. -/
def save_dpo_pair_incremental (p : DPOPair) (timestamp session_id : String)
    (log : List SavedPair) : Bool × List SavedPair :=
  if validate_dpo_pair_object p then
    (true, log ++ [serialize_pair p timestamp session_id])
  else
    (false, log)

/-- The external chat completion service: takes the message list and the
`max_tokens` budget, returns the completion text or `none` when the call (or
the subsequent `.message.content[0].text` access) raises. -/
def ChatService : Type := List Msg → Nat → Option String

/-- The user prompt built by `generate_chosen_response` (lines 175-194). -/
def chosen_user_message (question : String) (recipe : Recipe) : String :=
  "Responde la siguiente pregunta sobre la receta \"" ++ recipe.nombre ++
  "\" de manera completa, precisa y culturalmente auténtica.\n\nPregunta: " ++ question ++
  "\n\nInformación de la receta:\n- Nombre: " ++ recipe.nombre ++
  "\n- Ingredientes: " ++ String.intercalate ", " recipe.ingredientes ++
  "\n- Tiempo: " ++ recipe.tiempo ++
  "\n- Dificultad: " ++ recipe.dificultad ++
  "\n- Raciones: " ++ recipe.racion ++
  "\n- Valor nutricional: " ++ recipe.valor_nutricional.getD "N/A" ++
  "\n\nPasos de preparación: " ++ String.intercalate " " recipe.pasos ++
  "\n\nProporciona una respuesta que sea:\n1. Técnicamente precisa y completa" ++
  "\n2. Culturalmente auténtica para el origen de la receta" ++
  "\n3. Práctica y útil para cocinar\n4. Clara y en español natural" ++
  "\n5. Específica para esta receta"

/-- `generate_chosen_response` (lines 171-209): call the service with the
persona system prompt and the detailed user prompt at `max_tokens = 8192`;
strip the result; on any exception return the fixed apology string. -/
def generate_chosen_response (svc : ChatService) (question : String)
    (recipe : Recipe) (category : String) : String :=
  let system_message := select_system_message category
  let user_message := chosen_user_message question recipe
  match svc [⟨"system", system_message⟩, ⟨"user", user_message⟩] 8192 with
  | some text => text.trim
  | none => "Lo siento, no puedo proporcionar esa información en este momento."

/-- The user prompt built by `generate_rejected_response` (lines 217-235). -/
def rejected_user_message (question : String) (recipe : Recipe) : String :=
  "Responde la pregunta sobre " ++ recipe.nombre ++ " de manera básica.\n\nPregunta: " ++
  question ++
  "\n\nInformación de la receta:\n- Nombre: " ++ recipe.nombre ++
  "\n- Ingredientes: " ++ String.intercalate ", " recipe.ingredientes ++
  "\n- Tiempo: " ++ recipe.tiempo ++
  "\n- Dificultad: " ++ recipe.dificultad ++
  "\n- Raciones: " ++ recipe.racion ++
  "\n- Valor nutricional: " ++ recipe.valor_nutricional.getD "N/A" ++
  "\n\nPasos de preparación: " ++ String.intercalate " " recipe.pasos ++
  "\n\nProporciona una respuesta que sea:\n1. Correcta pero incompleta o mal formada" ++
  "\n2. General, no específica el origen" ++
  "\n3. Breve y con detalles técnicos pero sin profundidad" ++
  "\n4. Sin contexto cultural específico"

/-- `generate_rejected_response` (lines 211-250): degraded system prompt,
`max_tokens = 2048`; on any exception return the fixed generic fallback. -/
def generate_rejected_response (svc : ChatService) (question : String)
    (recipe : Recipe) (category : String) : String :=
  let degraded_system := "Responde brevemente sobre cocina, pero no profundices demasiado en los detalles técnicos o culturales."
  let user_message := rejected_user_message question recipe
  match svc [⟨"system", degraded_system⟩, ⟨"user", user_message⟩] 2048 with
  | some text => text.trim
  | none => "Es un plato tradicional. Sigue las instrucciones básicas de cocina."

/-- `difficulty_mapping` (lines 266-276) inside `generate_dpo_pair`. -/
def difficulty_mapping : List (String × String) :=
  [("basic_recipe", "beginner"),
   ("ingredients", "beginner"),
   ("cooking_techniques", "intermediate"),
   ("cultural_context", "advanced"),
   ("troubleshooting", "intermediate"),
   ("nutritional_info", "intermediate"),
   ("time_and_planning", "beginner"),
   ("scaling_portions", "intermediate"),
   ("multiple_choice", "intermediate")]

/-- `generate_dpo_pair` (lines 252-288).  The source reads `recipe["id"]`
with a direct subscript; in the batch flow the call is only reached after
`get_recipe_questions` returned a non-empty list, which requires a present
non-zero id, so the `Option` is collapsed with `getD 0` here (the `0` branch
is unreachable from the batch loop). -/
def generate_dpo_pair (svcChosen svcRejected : ChatService) (recipe : Recipe)
    (question category context : String) : DPOPair :=
  let system_message := select_system_message category
  let messages : List Msg := [⟨"system", system_message⟩, ⟨"user", question⟩]
  let chosen := generate_chosen_response svcChosen question recipe category
  let rejected := generate_rejected_response svcRejected question recipe category
  let metadata : List (String × MVal) :=
    [("recipe_id", MVal.int (recipe.id.getD 0)),
     ("recipe_name", MVal.str recipe.nombre),
     ("category", MVal.str category),
     ("context", MVal.str context),
     ("difficulty_level", MVal.str (lookupD difficulty_mapping category "intermediate")),
     ("recipe_category", MVal.str (recipe.categoria.getD "N/A")),
     ("recipe_country", MVal.str (recipe.pais.getD "Ecuador"))]
  ⟨messages, chosen, rejected, metadata⟩

/-- The question bank: `defaultdict(list)` keyed by recipe id, modelled as an
association list preserving first-appearance key order and per-key insertion
order. -/
def Bank : Type := List (Int × List QuestionItem)

/-- Append `item` to the bucket of `rid`, creating the bucket at the end when
absent (defaultdict insertion order). -/
def bankInsert : Bank → Int → QuestionItem → Bank
  | [], rid, item => [(rid, [item])]
  | (k, items) :: rest, rid, item =>
      if k == rid then (k, items ++ [item]) :: rest
      else (k, items) :: bankInsert rest rid item

/-- `questions_by_recipe[recipe_id]` lookup with `.get(recipe_id, [])`. -/
def bankGet : Bank → Int → List QuestionItem
  | [], _ => []
  | (k, items) :: rest, rid => if k == rid then items else bankGet rest rid

/-- The grouping loop of `_load_questions_bank` (lines 96-101): entries whose
`recipe_id` is absent or falsy (`0`) are skipped with a warning. -/
def organizeBank (items : List QuestionItem) : Bank :=
  items.foldl
    (fun acc item =>
      match item.recipe_id with
      | some rid => if rid == 0 then acc else bankInsert acc rid item
      | none => acc)
    []

/-- `_load_questions_bank` (lines 78-116).  `none` input models a missing
file or invalid JSON (both `except` paths return the still-empty
defaultdict); `some items` is the parsed file contents. -/
def load_questions_bank (input : Option (List QuestionItem)) : Bank :=
  match input with
  | none => []
  | some items => organizeBank items

/-- The per-item transformation of the loop in `get_recipe_questions`
(lines 136-149): defaulted field reads, skip empty question text, map the
bank category to the internal category with default `basic_recipe`. -/
def question_item_to_tuple (item : QuestionItem) : Option (String × String × String) :=
  let question_text := item.questions.getD ""
  let questions_category := item.questions_category.getD "General"
  let question_type := item.question_type.getD "contextual"
  if question_text.isEmpty then none
  else some (question_text, lookupD category_mapping questions_category "basic_recipe",
             question_type)

/-- `get_recipe_questions` (lines 118-152): empty when the recipe has no
truthy id or no bucket in the bank; otherwise the ordered valid questions. -/
def get_recipe_questions (bank : Bank) (recipe : Recipe) :
    List (String × String × String) :=
  match recipe.id with
  | none => []
  | some rid =>
      if rid == 0 then []
      else
        let questions_data := bankGet bank rid
        if questions_data.isEmpty then []
        else questions_data.filterMap question_item_to_tuple

/-- The progress record written by `save_progress` (lines 352-369). -/
structure ProgressRecord where
  session_id : String
  timestamp : String
  current_recipe_idx : Nat
  total_recipes : Nat
  current_question_idx : Nat
  total_questions : Nat
  current_recipe_name : String
  completion_percentage : ℚ
deriving Repr

/-- The `completion_percentage` expression of `save_progress` (line 362).
The Python float division raises `ZeroDivisionError` when
`total_recipes * total_questions == 0`; that exception is modelled by
`none` (the division sits outside the function's `try` block). -/
def completion_percentage (current_recipe_idx total_recipes current_question_idx
    total_questions : Nat) : Option ℚ :=
  if total_recipes * total_questions = 0 then none
  else some ((((current_recipe_idx * total_questions + current_question_idx : Nat) : ℚ) /
              ((total_recipes * total_questions : Nat) : ℚ)) * 100)

/-- `save_progress` (lines 352-369): build the progress record, or raise
(`none`) when the percentage computation divides by zero. -/
def save_progress (session_id timestamp : String) (current_recipe_idx total_recipes
    current_question_idx total_questions : Nat) (recipe_name : String) :
    Option ProgressRecord :=
  (completion_percentage current_recipe_idx total_recipes current_question_idx
      total_questions).map
    (fun pct => ⟨session_id, timestamp, current_recipe_idx, total_recipes,
                 current_question_idx, total_questions, recipe_name, pct⟩)

/-- The resume decision of `process_recipe_batch_incremental` (lines 409-415):
with `resume` set, a non-empty saved progress record and operator
confirmation, start at the saved `current_recipe_idx`; question index is not
consulted. -/
def resume_start_idx (resume : Bool) (progress : Option ProgressRecord)
    (confirm : Bool) : Nat :=
  if resume then
    match progress with
    | some p => if confirm then p.current_recipe_idx else 0
    | none => 0
  else 0

/-- Observable events of one batch run, in program order: a progress save
before each question attempt, then the save outcome for the generated pair. -/
inductive BatchEvent where
  | progress_saved (recipe_idx total_recipes question_idx total_questions : Nat)
      (recipe_name : String)
  | pair_saved (recipe_idx question_idx : Nat) (entry : SavedPair)
  | pair_failed (recipe_idx question_idx : Nat)
deriving DecidableEq, Repr

/-- The inner question loop of `process_recipe_batch_incremental`
(lines 428-451): save progress, generate the pair, attempt the incremental
save, count success or failure, continue. -/
def process_questions (svcChosen svcRejected : ChatService)
    (timestamp session_id : String) (total_recipes : Nat) (recipe : Recipe)
    (recipe_idx : Nat) (total_questions : Nat) :
    List (String × String × String) → Nat → List BatchEvent
  | [], _ => []
  | (question, category, context) :: rest, question_idx =>
      let pair := generate_dpo_pair svcChosen svcRejected recipe question category context
      let outcome :=
        if validate_dpo_pair_object pair then
          BatchEvent.pair_saved recipe_idx question_idx
            (serialize_pair pair timestamp session_id)
        else
          BatchEvent.pair_failed recipe_idx question_idx
      BatchEvent.progress_saved recipe_idx total_recipes question_idx total_questions
          recipe.nombre ::
        outcome ::
        process_questions svcChosen svcRejected timestamp session_id total_recipes
          recipe recipe_idx total_questions rest (question_idx + 1)

/-- The outer recipe loop (lines 420-454):
`for recipe_idx, recipe in enumerate(recipes[start_recipe_idx:], start_recipe_idx)`. -/
def process_recipes (svcChosen svcRejected : ChatService)
    (timestamp session_id : String) (bank : Bank) (total_recipes : Nat) :
    List Recipe → Nat → List BatchEvent
  | [], _ => []
  | recipe :: rest, recipe_idx =>
      let questions := get_recipe_questions bank recipe
      process_questions svcChosen svcRejected timestamp session_id total_recipes
          recipe recipe_idx questions.length questions 0 ++
        process_recipes svcChosen svcRejected timestamp session_id bank total_recipes
          rest (recipe_idx + 1)

/-- `process_recipe_batch_incremental` (lines 402-464), as the list of
observable events of the run. -/
def process_recipe_batch_incremental (svcChosen svcRejected : ChatService)
    (timestamp session_id : String) (bank : Bank) (recipes : List Recipe)
    (resume : Bool) (progress : Option ProgressRecord) (confirm : Bool) :
    List BatchEvent :=
  let start_recipe_idx := resume_start_idx resume progress confirm
  process_recipes svcChosen svcRejected timestamp session_id bank recipes.length
    (recipes.drop start_recipe_idx) start_recipe_idx

/-- The session log produced by a run: the lines appended by the successful
incremental saves, in order. -/
def session_log (events : List BatchEvent) : List SavedPair :=
  events.filterMap
    (fun e =>
      match e with
      | BatchEvent.pair_saved _ _ entry => some entry
      | _ => none)

/-- A JSON value, as parsed from a session log line by `json.loads`. -/
inductive JVal where
  | str : String → JVal
  | int : Int → JVal
  | arr : List JVal → JVal
  | obj : List (String × JVal) → JVal

/-- Key lookup in a parsed JSON object. -/
def jlookup : List (String × JVal) → String → Option JVal
  | [], _ => none
  | (k, v) :: rest, key => if k == key then some v else jlookup rest key

/-- One line of the session JSONL file as seen by `convert_jsonl_to_json`:
either blank (`line.strip()` falsy, skipped) or a parsed JSON object. -/
inductive LogLine where
  | blank : LogLine
  | record : List (String × JVal) → LogLine

/-- The `clean_pair` dict built at lines 484-489: the four retained keys with
their values from the line.  A missing key raises `KeyError` (`none`), which
the enclosing `try` of `convert_jsonl_to_json` turns into total failure. -/
def clean_pair (kvs : List (String × JVal)) : Option (List (String × JVal)) :=
  match jlookup kvs "messages", jlookup kvs "chosen",
        jlookup kvs "rejected", jlookup kvs "metadata" with
  | some m, some c, some r, some md =>
      some [("messages", m), ("chosen", c), ("rejected", r), ("metadata", md)]
  | _, _, _, _ => none

/-- `convert_jsonl_to_json` (lines 466-501): read the session log line by
line, skip blank lines, strip the session-only fields of each record,
collect into a single array.  `none` models the `except` path (the function
returns `""` and writes nothing). -/
def convert_jsonl_to_json : List LogLine → Option (List (List (String × JVal)))
  | [] => some []
  | LogLine.blank :: rest => convert_jsonl_to_json rest
  | LogLine.record kvs :: rest =>
      match clean_pair kvs, convert_jsonl_to_json rest with
      | some c, some out => some (c :: out)
      | _, _ => none

/-- Whether a log line is a non-blank record. -/
def LogLine.isRecord : LogLine → Bool
  | LogLine.blank => false
  | LogLine.record _ => true

/-- The validation invariant as worded by the spec (for comparison with the
source-derived `validate_dpo_pair_object`): non-empty messages, chosen,
rejected, and metadata; exactly two messages with role `system` first and
`user` second; chosen length at least 50; rejected length at least 20;
chosen different from rejected; and metadata containing all four of
`recipe_id`, `recipe_name`, `category`, `context`. -/
def spec_invariant (p : DPOPair) : Prop :=
  p.messages ≠ [] ∧ p.chosen ≠ "" ∧ p.rejected ≠ "" ∧ p.metadata ≠ [] ∧
  (∃ m0 m1, p.messages = [m0, m1] ∧ m0.role = "system" ∧ m1.role = "user") ∧
  50 ≤ p.chosen.length ∧ 20 ≤ p.rejected.length ∧
  p.chosen ≠ p.rejected ∧
  (∀ field ∈ ["recipe_id", "recipe_name", "category", "context"],
    ∃ kv ∈ p.metadata, kv.1 = field)

/-- The recipe index an event belongs to. -/
def BatchEvent.recipeIdx : BatchEvent → Nat
  | BatchEvent.progress_saved recipe_idx _ _ _ _ => recipe_idx
  | BatchEvent.pair_saved recipe_idx _ _ => recipe_idx
  | BatchEvent.pair_failed recipe_idx _ => recipe_idx

/-- A chat service on which every call raises. -/
def failing_service : ChatService := fun _ _ => none

/-- A concrete recipe, used to instantiate the theorems below. -/
def sampleRecipe : Recipe :=
  ⟨some 7, "Locro de papa", ["papa", "queso", "leche"],
   ["Cocinar las papas", "Agregar el queso", "Servir caliente"],
   "45 minutos", "Fácil", "4", none, none, none⟩

/-- The pair produced for `sampleRecipe` when both service calls fail: its
chosen text is the apology fallback and its rejected text is the generic
fallback. -/
def fallbackPair : DPOPair :=
  generate_dpo_pair failing_service failing_service sampleRecipe
    "¿Cómo preparo el Locro de papa para una cena familiar?" "basic_recipe" "contextual"

/-- `clean_line`: the treatment of one log line inside the read loop of
`convert_jsonl_to_json` — blank lines are skipped, records are cleaned. -/
def clean_line : LogLine → Option (List (String × JVal))
  | LogLine.blank => none
  | LogLine.record kvs => clean_pair kvs

/-- A minimal well-formed recipe with the given id and name. -/
def simpleRecipe (n : Int) (name : String) : Recipe :=
  ⟨some n, name, ["ingrediente"], ["paso"], "10 minutos", "Fácil", "2", none, none, none⟩

/-- A recipe whose `id` key is absent. -/
def noIdRecipe : Recipe :=
  ⟨none, "Sin identificador", ["ingrediente"], ["paso"], "10 minutos", "Fácil", "2",
   none, none, none⟩

/-- Six recipes with ids 1 to 6, for the resume theorems. -/
def c3_recipes : List Recipe :=
  [simpleRecipe 1 "R1", simpleRecipe 2 "R2", simpleRecipe 3 "R3",
   simpleRecipe 4 "R4", simpleRecipe 5 "R5", simpleRecipe 6 "R6"]

/-- A bank question for recipe id 6 with category `General`. -/
def c3_item (q : String) : QuestionItem :=
  ⟨some 6, some q, some "General", some "contextual"⟩

/-- A question bank giving recipe id 6 three questions. -/
def c3_bank : Bank := [(6, [c3_item "q0", c3_item "q1", c3_item "q2"])]

/-- A saved progress record interrupted at recipe index 5, question index 2. -/
def c3_progress : ProgressRecord := ⟨"s", "t", 5, 6, 2, 3, "R6", 95⟩

theorem validate_iff_spec (p : DPOPair) :
    validate_dpo_pair_object p = true ↔ spec_invariant p := by
  rcases p with ⟨ms, chosen, rejected, metadata⟩
  unfold validate_dpo_pair_object spec_invariant
  simp only
  constructor
  · intro h
    split_ifs at h with h1 h2 h3 h4 h5
    simp only [Bool.or_eq_true, not_or] at h1 h3
    obtain ⟨⟨⟨hm, hc⟩, hr⟩, hmd⟩ := h1
    obtain ⟨hc50, hr20⟩ := h3
    simp only [Bool.not_eq_true] at h2 h4 h5
    simp only [Bool.not_eq_false'] at h2 h5
    refine ⟨?_, ?_, ?_, ?_, ?_, ?_, ?_, ?_, ?_⟩
    · simpa [List.isEmpty_iff] using hm
    · simpa [String.isEmpty_iff] using hc
    · simpa [String.isEmpty_iff] using hr
    · simpa [List.isEmpty_iff] using hmd
    · match ms, h2 with
      | [m0, m1], h2 =>
        simp only [Bool.and_eq_true, beq_iff_eq] at h2
        exact ⟨m0, m1, rfl, h2.1, h2.2⟩
    · simpa using hc50
    · simpa using hr20
    · intro heq
      rw [heq] at h4
      simp at h4
    · intro field hf
      have := (List.all_eq_true.mp h5) field hf
      obtain ⟨kv, hkv, hkveq⟩ := List.any_eq_true.mp this
      exact ⟨kv, hkv, by simpa [beq_iff_eq] using hkveq⟩
  · rintro ⟨hm, hc, hr, hmd, ⟨m0, m1, hms, hrole0, hrole1⟩, hc50, hr20, hne, hmeta⟩
    subst hms
    have c1 : chosen.isEmpty = false := by
      rw [Bool.eq_false_iff]
      simpa [String.isEmpty_iff] using hc
    have c2 : rejected.isEmpty = false := by
      rw [Bool.eq_false_iff]
      simpa [String.isEmpty_iff] using hr
    have c3 : metadata.isEmpty = false := by
      rw [Bool.eq_false_iff]
      simpa [List.isEmpty_iff] using hmd
    have e2 : (m0.role == "system" && m1.role == "user") = true := by
      simp [hrole0, hrole1]
    have e3 : (decide (chosen.length < 50) || decide (rejected.length < 20)) = false := by
      simp only [Bool.or_eq_false_iff, decide_eq_false_iff_not]
      omega
    have e4 : (chosen == rejected) = false := by
      rw [Bool.eq_false_iff]
      simpa [beq_iff_eq] using hne
    have e5 : (["recipe_id", "recipe_name", "category", "context"].all
        (fun field => metadata.any (fun kv => kv.1 == field))) = true := by
      rw [List.all_eq_true]
      intro field hf
      obtain ⟨kv, hkv, hkveq⟩ := hmeta field hf
      rw [List.any_eq_true]
      exact ⟨kv, hkv, by simp [hkveq]⟩
    simp [c1, c2, c3, e2, e3, e4, e5]

theorem save_writes_of_spec_invariant (p : DPOPair) (ts sid : String)
    (log : List SavedPair) (h : spec_invariant p) :
    validate_dpo_pair_object p = true ∧
    save_dpo_pair_incremental p ts sid log = (true, log ++ [serialize_pair p ts sid]) := by
  have hv := (validate_iff_spec p).mpr h
  exact ⟨hv, by unfold save_dpo_pair_incremental; rw [hv]; simp⟩

theorem spec_invariant_of_parts (p : DPOPair)
    (hmsgs : ∃ m0 m1, p.messages = [m0, m1] ∧ m0.role = "system" ∧ m1.role = "user")
    (hc50 : 50 ≤ p.chosen.length) (hr20 : 20 ≤ p.rejected.length)
    (hne : p.chosen ≠ p.rejected)
    (hmeta : ∀ field ∈ ["recipe_id", "recipe_name", "category", "context"],
      ∃ kv ∈ p.metadata, kv.1 = field) :
    spec_invariant p := by
  obtain ⟨m0, m1, hms, hr0, hr1⟩ := hmsgs
  refine ⟨by rw [hms]; simp, ?_, ?_, ?_, ⟨m0, m1, hms, hr0, hr1⟩, hc50, hr20, hne, hmeta⟩
  · intro h
    rw [h] at hc50
    simp [String.length] at hc50
  · intro h
    rw [h] at hr20
    simp [String.length] at hr20
  · obtain ⟨kv, hkv, _⟩ := hmeta "recipe_id" (by simp)
    exact List.ne_nil_of_mem hkv

/-- C1: every DPO pair written to the session log satisfies the validation
invariant (non-empty messages, chosen, rejected and metadata; exactly two
messages, system then user; chosen length ≥ 50; rejected length ≥ 20;
chosen ≠ rejected; all four required metadata fields); any pair violating
one of these conditions makes `save_dpo_pair_incremental` return `false`
with the session log unchanged. -/
theorem appendToLog_validation_invariant (p : DPOPair) (ts sid : String)
    (log : List SavedPair) :
    (validate_dpo_pair_object p = true ↔ spec_invariant p) ∧
    (spec_invariant p →
      save_dpo_pair_incremental p ts sid log = (true, log ++ [serialize_pair p ts sid])) ∧
    (¬ spec_invariant p → save_dpo_pair_incremental p ts sid log = (false, log)) := by
  refine ⟨validate_iff_spec p, ?_, ?_⟩
  · intro h
    exact (save_writes_of_spec_invariant p ts sid log h).2
  · intro h
    have hv : validate_dpo_pair_object p = false := by
      rw [Bool.eq_false_iff]
      intro ht
      exact h ((validate_iff_spec p).mp ht)
    unfold save_dpo_pair_incremental
    rw [hv]
    simp

/-- C1 witness: the concrete double-fallback pair satisfies the invariant
and is written; the same pair with its metadata emptied violates it and is
dropped with the log unchanged. -/
theorem appendToLog_validation_invariant_witness :
    save_dpo_pair_incremental fallbackPair "t1" "s1" [] =
      (true, [serialize_pair fallbackPair "t1" "s1"]) ∧
    save_dpo_pair_incremental ⟨fallbackPair.messages, fallbackPair.chosen,
      fallbackPair.rejected, []⟩ "t1" "s1" [] = (false, []) := by
  constructor
  · exact (appendToLog_validation_invariant fallbackPair "t1" "s1" []).2.1
      ((validate_iff_spec fallbackPair).mp (by decide))
  · exact (appendToLog_validation_invariant ⟨fallbackPair.messages, fallbackPair.chosen,
      fallbackPair.rejected, []⟩ "t1" "s1" []).2.2
      (fun h => by
        have := (validate_iff_spec _).mpr h
        revert this
        decide)

/-- C2 counterexample: the apology string returned by
`generate_chosen_response` when the service fails is 65 characters long, not
strictly shorter than 50; the concrete double-fallback pair, whose chosen
text is exactly that apology, passes validation and is written to the
session log rather than dropped. -/
theorem chosen_apology_counterexample :
    generate_chosen_response failing_service "q" sampleRecipe "basic_recipe" =
      "Lo siento, no puedo proporcionar esa información en este momento." ∧
    ("Lo siento, no puedo proporcionar esa información en este momento.").length = 65 ∧
    ¬ (generate_chosen_response failing_service "q" sampleRecipe "basic_recipe").length < 50 ∧
    fallbackPair.chosen =
      "Lo siento, no puedo proporcionar esa información en este momento." ∧
    validate_dpo_pair_object fallbackPair = true ∧
    save_dpo_pair_incremental fallbackPair "t2" "s2" [] =
      (true, [serialize_pair fallbackPair "t2" "s2"]) := by
  refine ⟨rfl, by decide, by decide, rfl, by decide, ?_⟩
  unfold save_dpo_pair_incremental
  rw [show validate_dpo_pair_object fallbackPair = true by decide]
  simp

/-- C2 (amended): when the external chat service fails on the
chosen-generation call, `generate_chosen_response` returns the fixed apology
string instead of raising; that string is 65 characters long — not shorter
than 50 — so it passes the chosen-length check, and a pair whose chosen text
is the apology and whose remaining fields are valid is validated and written
to the session log rather than dropped. -/
theorem chosen_service_failure_apology (question : String) (recipe : Recipe)
    (category : String) (p : DPOPair) (ts sid : String) (log : List SavedPair)
    (hchosen : p.chosen = "Lo siento, no puedo proporcionar esa información en este momento.")
    (hmsgs : ∃ m0 m1, p.messages = [m0, m1] ∧ m0.role = "system" ∧ m1.role = "user")
    (hrej : 20 ≤ p.rejected.length)
    (hne : p.chosen ≠ p.rejected)
    (hmeta : ∀ field ∈ ["recipe_id", "recipe_name", "category", "context"],
      ∃ kv ∈ p.metadata, kv.1 = field) :
    generate_chosen_response failing_service question recipe category =
      "Lo siento, no puedo proporcionar esa información en este momento." ∧
    50 ≤ p.chosen.length ∧
    validate_dpo_pair_object p = true ∧
    save_dpo_pair_incremental p ts sid log = (true, log ++ [serialize_pair p ts sid]) := by
  have hc50 : 50 ≤ p.chosen.length := by
    rw [hchosen]
    decide
  have hspec := spec_invariant_of_parts p hmsgs hc50 hrej hne hmeta
  have hsave := save_writes_of_spec_invariant p ts sid log hspec
  exact ⟨rfl, hc50, hsave.1, hsave.2⟩

/-- C2 witness: the amended statement instantiated at the concrete
double-fallback pair. -/
theorem chosen_service_failure_apology_witness :
    validate_dpo_pair_object fallbackPair = true ∧
    save_dpo_pair_incremental fallbackPair "t3" "s3" [] =
      (true, [serialize_pair fallbackPair "t3" "s3"]) := by
  have h := chosen_service_failure_apology "q" sampleRecipe "basic_recipe" fallbackPair
    "t3" "s3" [] rfl ⟨⟨"system", select_system_message "basic_recipe"⟩,
      ⟨"user", "¿Cómo preparo el Locro de papa para una cena familiar?"⟩, rfl, rfl, rfl⟩
    (by decide) (by decide) (by decide)
  exact ⟨h.2.2.1, by simpa using h.2.2.2⟩

/-- C4: when the external chat service fails on the rejected-generation
call, `generate_rejected_response` returns the fixed generic fallback
string; that string is 67 characters long, at least the 20 required by the
rejected-length check, so a pair whose rejected text is the fallback and
whose other fields are valid is validated and written to the session log. -/
theorem rejected_service_failure_fallback (question : String) (recipe : Recipe)
    (category : String) (p : DPOPair) (ts sid : String) (log : List SavedPair)
    (hrej : p.rejected = "Es un plato tradicional. Sigue las instrucciones básicas de cocina.")
    (hmsgs : ∃ m0 m1, p.messages = [m0, m1] ∧ m0.role = "system" ∧ m1.role = "user")
    (hchosen : 50 ≤ p.chosen.length)
    (hne : p.chosen ≠ p.rejected)
    (hmeta : ∀ field ∈ ["recipe_id", "recipe_name", "category", "context"],
      ∃ kv ∈ p.metadata, kv.1 = field) :
    generate_rejected_response failing_service question recipe category =
      "Es un plato tradicional. Sigue las instrucciones básicas de cocina." ∧
    20 ≤ ("Es un plato tradicional. Sigue las instrucciones básicas de cocina.").length ∧
    validate_dpo_pair_object p = true ∧
    save_dpo_pair_incremental p ts sid log = (true, log ++ [serialize_pair p ts sid]) := by
  have hr20 : 20 ≤ p.rejected.length := by
    rw [hrej]
    decide
  have hspec := spec_invariant_of_parts p hmsgs hchosen hr20 hne hmeta
  have hsave := save_writes_of_spec_invariant p ts sid log hspec
  exact ⟨rfl, by decide, hsave.1, hsave.2⟩

/-- C4 witness: instantiated at the concrete double-fallback pair, whose
rejected text is exactly the generic fallback. -/
theorem rejected_service_failure_fallback_witness :
    validate_dpo_pair_object fallbackPair = true ∧
    save_dpo_pair_incremental fallbackPair "t4" "s4" [] =
      (true, [serialize_pair fallbackPair "t4" "s4"]) := by
  have h := rejected_service_failure_fallback "q" sampleRecipe "basic_recipe" fallbackPair
    "t4" "s4" [] rfl ⟨⟨"system", select_system_message "basic_recipe"⟩,
      ⟨"user", "¿Cómo preparo el Locro de papa para una cena familiar?"⟩, rfl, rfl, rfl⟩
    (by decide) (by decide) (by decide)
  exact ⟨h.2.2.1, by simpa using h.2.2.2⟩

theorem recipeIdx_process_questions (svcChosen svcRejected : ChatService)
    (ts sid : String) (tr : Nat) (recipe : Recipe) (ridx tq : Nat) :
    ∀ (qs : List (String × String × String)) (qidx : Nat),
      ∀ e ∈ process_questions svcChosen svcRejected ts sid tr recipe ridx tq qs qidx,
        e.recipeIdx = ridx := by
  intro qs
  induction qs with
  | nil =>
    intro qidx e he
    simp [process_questions] at he
  | cons q rest ih =>
    intro qidx e he
    obtain ⟨question, category, context⟩ := q
    rw [process_questions] at he
    simp only [List.mem_cons] at he
    rcases he with he | he | he
    · subst he
      rfl
    · subst he
      split <;> rfl
    · exact ih (qidx + 1) e he

theorem recipeIdx_process_recipes (svcChosen svcRejected : ChatService)
    (ts sid : String) (bank : Bank) (tr : Nat) :
    ∀ (rs : List Recipe) (i : Nat),
      ∀ e ∈ process_recipes svcChosen svcRejected ts sid bank tr rs i,
        i ≤ e.recipeIdx := by
  intro rs
  induction rs with
  | nil =>
    intro i e he
    simp [process_recipes] at he
  | cons recipe rest ih =>
    intro i e he
    rw [process_recipes] at he
    rcases List.mem_append.mp he with he | he
    · exact le_of_eq
        (recipeIdx_process_questions svcChosen svcRejected ts sid tr recipe i _ _ 0 e he).symm
    · exact le_trans (Nat.le_succ i) (ih (i + 1) e he)

/-- C3 counterexample: with six recipes, a bank giving the sixth recipe
three questions, and a progress record interrupted at recipe index 5 /
question index 2, the resumed run re-processes questions 0 and 1 of recipe
index 5 — both already logged before the interruption — so it re-does more
than the single in-flight question. -/
theorem resume_redoes_completed_questions_counterexample :
    BatchEvent.progress_saved 5 6 0 3 "R6" ∈
      process_recipe_batch_incremental failing_service failing_service "t" "s"
        c3_bank c3_recipes true (some c3_progress) true ∧
    BatchEvent.progress_saved 5 6 1 3 "R6" ∈
      process_recipe_batch_incremental failing_service failing_service "t" "s"
        c3_bank c3_recipes true (some c3_progress) true := by
  constructor <;> decide

/-- C3 (amended): resuming with a saved progress record at recipe index 5
(with operator confirmation) starts the outer loop at recipe index 5, never
re-processing any question of recipes 0 through 4; however, the question
offset is not consulted, so the interrupted recipe is restarted from its
first question, re-doing all of its previously completed questions and the
in-flight one rather than at most the in-flight question. -/
theorem resume_skips_completed_recipes (svcChosen svcRejected : ChatService)
    (ts sid : String) (bank : Bank) (recipes : List Recipe) (pr : ProgressRecord)
    (hidx : pr.current_recipe_idx = 5) :
    process_recipe_batch_incremental svcChosen svcRejected ts sid bank recipes
        true (some pr) true =
      process_recipes svcChosen svcRejected ts sid bank recipes.length
        (recipes.drop 5) 5 ∧
    ∀ e ∈ process_recipe_batch_incremental svcChosen svcRejected ts sid bank recipes
        true (some pr) true,
      5 ≤ e.recipeIdx := by
  have hstart : resume_start_idx true (some pr) true = 5 := by
    simp [resume_start_idx, hidx]
  constructor
  · unfold process_recipe_batch_incremental
    rw [hstart]
  · intro e he
    unfold process_recipe_batch_incremental at he
    rw [hstart] at he
    exact recipeIdx_process_recipes svcChosen svcRejected ts sid bank recipes.length
      (recipes.drop 5) 5 e he

/-- C3 witness: the amended statement instantiated at the concrete six-recipe
setup. -/
theorem resume_skips_completed_recipes_witness :
    process_recipe_batch_incremental failing_service failing_service "t5" "s5"
        c3_bank c3_recipes true (some c3_progress) true =
      process_recipes failing_service failing_service "t5" "s5" c3_bank 6
        (c3_recipes.drop 5) 5 :=
  (resume_skips_completed_recipes failing_service failing_service "t5" "s5"
    c3_bank c3_recipes c3_progress rfl).1

/-- C7: a recipe whose identifier is absent, or absent from the question
bank, yields the empty question sequence, and the batch loop over a recipe
list containing it produces exactly the events of the remaining recipes —
the recipe contributes no pairs to the session log. -/
theorem missing_recipe_contributes_nothing (bank : Bank) (recipe : Recipe)
    (h : recipe.id = none ∨ ∃ rid, recipe.id = some rid ∧ bankGet bank rid = []) :
    get_recipe_questions bank recipe = [] ∧
    ∀ (svcChosen svcRejected : ChatService) (ts sid : String) (tr : Nat)
      (rest : List Recipe) (i : Nat),
      process_recipes svcChosen svcRejected ts sid bank tr (recipe :: rest) i =
        process_recipes svcChosen svcRejected ts sid bank tr rest (i + 1) := by
  have hq : get_recipe_questions bank recipe = [] := by
    rcases h with h | ⟨rid, hid, hbank⟩
    · unfold get_recipe_questions
      rw [h]
    · simp only [get_recipe_questions, hid]
      by_cases h0 : rid == 0 <;> simp [h0, hbank]
  refine ⟨hq, ?_⟩
  intro svcChosen svcRejected ts sid tr rest i
  rw [process_recipes, hq]
  simp [process_questions]

/-- C7 witness: instantiated at a recipe with no identifier and the empty
bank. -/
theorem missing_recipe_contributes_nothing_witness :
    get_recipe_questions [] noIdRecipe = [] ∧
    process_recipes failing_service failing_service "t7" "s7" [] 1 [noIdRecipe] 0 =
      process_recipes failing_service failing_service "t7" "s7" [] 1 [] 1 := by
  have h := missing_recipe_contributes_nothing [] noIdRecipe (Or.inl rfl)
  exact ⟨h.1, h.2 failing_service failing_service "t7" "s7" 1 [] 0⟩

theorem get_recipe_questions_empty_bank (recipe : Recipe) :
    get_recipe_questions [] recipe = [] := by
  unfold get_recipe_questions
  cases recipe.id with
  | none => rfl
  | some rid =>
    simp only
    split
    · rfl
    · rfl

theorem process_recipes_empty_bank (svcChosen svcRejected : ChatService)
    (ts sid : String) (tr : Nat) :
    ∀ (rs : List Recipe) (i : Nat),
      process_recipes svcChosen svcRejected ts sid [] tr rs i = [] := by
  intro rs
  induction rs with
  | nil =>
    intro i
    rw [process_recipes]
  | cons recipe rest ih =>
    intro i
    rw [process_recipes, get_recipe_questions_empty_bank]
    simp [process_questions, ih (i + 1)]

/-- C8: when the question bank file is absent or holds invalid JSON, loading
yields the empty bank, and a batch run over any recipe list produces no
events at all — in particular an empty session log with no pairs written. -/
theorem absent_bank_produces_no_pairs (svcChosen svcRejected : ChatService)
    (ts sid : String) (recipes : List Recipe) (resume : Bool)
    (progress : Option ProgressRecord) (confirm : Bool) :
    load_questions_bank none = [] ∧
    process_recipe_batch_incremental svcChosen svcRejected ts sid
        (load_questions_bank none) recipes resume progress confirm = [] ∧
    session_log (process_recipe_batch_incremental svcChosen svcRejected ts sid
        (load_questions_bank none) recipes resume progress confirm) = [] := by
  have hb : load_questions_bank none = ([] : Bank) := rfl
  have he : process_recipe_batch_incremental svcChosen svcRejected ts sid
      (load_questions_bank none) recipes resume progress confirm = [] := by
    unfold process_recipe_batch_incremental
    rw [hb]
    exact process_recipes_empty_bank svcChosen svcRejected ts sid recipes.length _ _
  exact ⟨hb, he, by rw [he]; rfl⟩

theorem progress_event_process_questions (svcChosen svcRejected : ChatService)
    (ts sid : String) (tr : Nat) (recipe : Recipe) (ridx tq : Nat) :
    ∀ (qs : List (String × String × String)) (qidx : Nat)
      (r tr2 q tq2 : Nat) (nm : String),
      BatchEvent.progress_saved r tr2 q tq2 nm ∈
        process_questions svcChosen svcRejected ts sid tr recipe ridx tq qs qidx →
      tr2 = tr ∧ tq2 = tq := by
  intro qs
  induction qs with
  | nil =>
    intro qidx r tr2 q tq2 nm h
    simp [process_questions] at h
  | cons qq rest ih =>
    intro qidx r tr2 q tq2 nm h
    obtain ⟨question, category, context⟩ := qq
    rw [process_questions] at h
    simp only [List.mem_cons] at h
    rcases h with h | h | h
    · injection h with h1 h2 h3 h4 h5
      exact ⟨h2, h4⟩
    · revert h
      split <;> intro h <;> exact absurd h (by simp)
    · exact ih (qidx + 1) r tr2 q tq2 nm h

theorem progress_event_process_recipes (svcChosen svcRejected : ChatService)
    (ts sid : String) (bank : Bank) (tr : Nat) :
    ∀ (rs : List Recipe) (i : Nat) (r tr2 q tq2 : Nat) (nm : String),
      BatchEvent.progress_saved r tr2 q tq2 nm ∈
        process_recipes svcChosen svcRejected ts sid bank tr rs i →
      tr2 = tr ∧ 1 ≤ tq2 := by
  intro rs
  induction rs with
  | nil =>
    intro i r tr2 q tq2 nm h
    simp [process_recipes] at h
  | cons recipe rest ih =>
    intro i r tr2 q tq2 nm h
    rw [process_recipes] at h
    rcases List.mem_append.mp h with h | h
    · have hfields := progress_event_process_questions svcChosen svcRejected ts sid tr
        recipe i (get_recipe_questions bank recipe).length
        (get_recipe_questions bank recipe) 0 r tr2 q tq2 nm h
      refine ⟨hfields.1, ?_⟩
      rw [hfields.2]
      cases hqs : get_recipe_questions bank recipe with
      | nil =>
        rw [hqs] at h
        simp [process_questions] at h
      | cons a l =>
        simp
    · exact ih (i + 1) r tr2 q tq2 nm h

/-- C9: `save_progress` divides by `total_recipes * total_questions` with no
zero guard, but at its only call site inside the batch loop both factors are
at least 1 — the recipe loop and the question loop are executing — so the
division-by-zero branch is unreachable and `save_progress` always returns a
record during a batch run. -/
theorem save_progress_no_zero_division (svcChosen svcRejected : ChatService)
    (ts sid : String) (bank : Bank) (recipes : List Recipe) (resume : Bool)
    (progress : Option ProgressRecord) (confirm : Bool)
    (r tr q tq : Nat) (nm : String)
    (h : BatchEvent.progress_saved r tr q tq nm ∈
      process_recipe_batch_incremental svcChosen svcRejected ts sid bank recipes
        resume progress confirm) :
    1 ≤ tr ∧ 1 ≤ tq ∧ tr * tq ≠ 0 ∧
    (save_progress sid ts r tr q tq nm).isSome = true := by
  unfold process_recipe_batch_incremental at h
  have hfields := progress_event_process_recipes svcChosen svcRejected ts sid bank
    recipes.length _ _ r tr q tq nm h
  have htr : 1 ≤ recipes.length := by
    cases recipes with
    | nil =>
      simp [process_recipes, List.drop_nil] at h
    | cons a l =>
      simp
  have h1 : 1 ≤ tr := hfields.1 ▸ htr
  have h2 : 1 ≤ tq := hfields.2
  have hne : tr * tq ≠ 0 := by positivity
  refine ⟨h1, h2, hne, ?_⟩
  unfold save_progress completion_percentage
  rw [if_neg hne]
  rfl

/-- C9 witness: a progress-save event of the concrete six-recipe run, at
which the percentage denominator is non-zero. -/
theorem save_progress_no_zero_division_witness :
    1 ≤ (6 : Nat) * 3 ∧ (save_progress "s9" "t9" 5 6 0 3 "R6").isSome = true := by
  have h := save_progress_no_zero_division failing_service failing_service "t9" "s9"
    c3_bank c3_recipes false none false 5 6 0 3 "R6" (by decide)
  exact ⟨by decide, h.2.2.2⟩

/-- C6: a bank question labelled `General` is mapped to the internal
category `basic_recipe` by `get_recipe_questions`; for category
`basic_recipe` the `recipe_instructions` persona system prompt is selected
as the pair's system message; and the produced pair's
`metadata.difficulty_level` is `beginner`. -/
theorem general_category_pipeline (bank : Bank) (recipe : Recipe) (rid : Int)
    (item : QuestionItem) (text : String)
    (hid : recipe.id = some rid) (h0 : rid ≠ 0)
    (hmem : item ∈ bankGet bank rid)
    (htext : item.questions = some text) (hne : text ≠ "")
    (hcat : item.questions_category = some "General") :
    lookupD category_mapping "General" "basic_recipe" = "basic_recipe" ∧
    question_item_to_tuple item =
      some (text, "basic_recipe", item.question_type.getD "contextual") ∧
    (text, "basic_recipe", item.question_type.getD "contextual") ∈
      get_recipe_questions bank recipe ∧
    select_system_message "basic_recipe" =
      lookupD system_messages "recipe_instructions" "" ∧
    (∀ (svcChosen svcRejected : ChatService) (question context : String),
      (generate_dpo_pair svcChosen svcRejected recipe question "basic_recipe"
          context).messages =
        [⟨"system", select_system_message "basic_recipe"⟩, ⟨"user", question⟩] ∧
      mlookup (generate_dpo_pair svcChosen svcRejected recipe question "basic_recipe"
          context).metadata "difficulty_level" = some (MVal.str "beginner")) := by
  have htuple : question_item_to_tuple item =
      some (text, "basic_recipe", item.question_type.getD "contextual") := by
    unfold question_item_to_tuple
    rw [htext, hcat]
    have : (text.isEmpty) = false := by
      rw [Bool.eq_false_iff]
      simpa [String.isEmpty_iff] using hne
    simp [this]
    rfl
  refine ⟨rfl, htuple, ?_, rfl, ?_⟩
  · have hdata : bankGet bank rid ≠ [] := List.ne_nil_of_mem hmem
    simp only [get_recipe_questions, hid]
    have hz : (rid == 0) = false := by
      rw [Bool.eq_false_iff]
      simpa using h0
    have hempty : (bankGet bank rid).isEmpty = false := by
      rw [Bool.eq_false_iff]
      simpa [List.isEmpty_iff] using hdata
    simp only [hz, hempty, Bool.false_eq_true, if_false]
    exact List.mem_filterMap.mpr ⟨item, hmem, htuple⟩
  · intro svcChosen svcRejected question context
    exact ⟨rfl, rfl⟩

/-- C6 witness: instantiated at the concrete bank question `q0` of recipe
id 6 and the concrete six-recipe setup. -/
theorem general_category_pipeline_witness :
    ("q0", "basic_recipe", "contextual") ∈
      get_recipe_questions c3_bank (simpleRecipe 6 "R6") ∧
    mlookup (generate_dpo_pair failing_service failing_service (simpleRecipe 6 "R6")
        "q0" "basic_recipe" "contextual").metadata "difficulty_level" =
      some (MVal.str "beginner") := by
  have h := general_category_pipeline c3_bank (simpleRecipe 6 "R6") 6 (c3_item "q0")
    "q0" rfl (by decide) (by decide) rfl (by decide) rfl
  exact ⟨h.2.2.1, (h.2.2.2.2 failing_service failing_service "q0" "contextual").2⟩

theorem lookupD_eq_default_of_not_mem (m : List (String × String)) (key default : String)
    (h : key ∉ m.map Prod.fst) : lookupD m key default = default := by
  induction m with
  | nil => rfl
  | cons kv rest ih =>
    simp only [List.map_cons, List.mem_cons, not_or] at h
    rw [lookupD]
    have : (kv.1 == key) = false := by
      rw [Bool.eq_false_iff]
      intro heq
      exact h.1 (by simpa using (eq_comm.mp (by simpa using heq)))
    obtain ⟨k, v⟩ := kv
    simp only at this
    rw [this]
    simp only [Bool.false_eq_true, if_false]
    exact ih h.2

/-- C10: the category, persona and difficulty lookups are total — any label
outside the nine enumerated bank categories maps to `basic_recipe`, any
category outside the persona mapping selects the `base_expert` prompt, any
category outside the difficulty mapping defaults to `intermediate` — and
bank entries with empty question text are skipped, so no unrecognized label
causes a lookup error. -/
theorem unknown_labels_are_total :
    (∀ s, s ∉ category_mapping.map Prod.fst →
      lookupD category_mapping s "basic_recipe" = "basic_recipe") ∧
    (∀ c, c ∉ select_category_mapping.map Prod.fst →
      select_system_message c = lookupD system_messages "base_expert" "") ∧
    (∀ c, c ∉ difficulty_mapping.map Prod.fst →
      lookupD difficulty_mapping c "intermediate" = "intermediate") ∧
    (∀ item, item.questions.getD "" = "" → question_item_to_tuple item = none) := by
  refine ⟨?_, ?_, ?_, ?_⟩
  · intro s hs
    exact lookupD_eq_default_of_not_mem _ s _ hs
  · intro c hc
    unfold select_system_message
    rw [lookupD_eq_default_of_not_mem _ c _ hc]
  · intro c hc
    exact lookupD_eq_default_of_not_mem _ c _ hc
  · intro item hempty
    unfold question_item_to_tuple
    rw [hempty]
    rfl

/-- C10 witness: instantiated at labels outside every mapping and at a bank
entry with no question text. -/
theorem unknown_labels_are_total_witness :
    lookupD category_mapping "Desconocida" "basic_recipe" = "basic_recipe" ∧
    select_system_message "desconocida" = lookupD system_messages "base_expert" "" ∧
    lookupD difficulty_mapping "desconocida" "intermediate" = "intermediate" ∧
    question_item_to_tuple ⟨some 1, none, some "General", none⟩ = none := by
  have h := unknown_labels_are_total
  exact ⟨h.1 "Desconocida" (by decide), h.2.1 "desconocida" (by decide),
    h.2.2.1 "desconocida" (by decide), h.2.2.2 ⟨some 1, none, some "General", none⟩ rfl⟩

theorem clean_pair_eq_some (kvs o : List (String × JVal))
    (h : clean_pair kvs = some o) :
    ∃ m c r md, jlookup kvs "messages" = some m ∧ jlookup kvs "chosen" = some c ∧
      jlookup kvs "rejected" = some r ∧ jlookup kvs "metadata" = some md ∧
      o = [("messages", m), ("chosen", c), ("rejected", r), ("metadata", md)] := by
  unfold clean_pair at h
  rcases hm : jlookup kvs "messages" with _ | m <;> rw [hm] at h
  · simp at h
  rcases hc : jlookup kvs "chosen" with _ | c <;> rw [hc] at h
  · simp at h
  rcases hr : jlookup kvs "rejected" with _ | r <;> rw [hr] at h
  · simp at h
  rcases hmd : jlookup kvs "metadata" with _ | md <;> rw [hmd] at h
  · simp at h
  simp only [Option.some.injEq] at h
  exact ⟨m, c, r, md, rfl, rfl, rfl, rfl, h.symm⟩

theorem convert_of_valid (lines : List LogLine)
    (hvalid : ∀ kvs, LogLine.record kvs ∈ lines → (clean_pair kvs).isSome = true) :
    convert_jsonl_to_json lines = some (lines.filterMap clean_line) ∧
    (lines.filterMap clean_line).length = lines.countP LogLine.isRecord := by
  induction lines with
  | nil => exact ⟨rfl, rfl⟩
  | cons l rest ih =>
    have hrest := ih (fun kvs hk => hvalid kvs (List.mem_cons_of_mem _ hk))
    cases l with
    | blank =>
      rw [convert_jsonl_to_json]
      simpa [clean_line, LogLine.isRecord, List.countP_cons] using hrest
    | record kvs =>
      have hk := hvalid kvs (List.mem_cons_self _ _)
      obtain ⟨o, ho⟩ := Option.isSome_iff_exists.mp hk
      rw [convert_jsonl_to_json]
      rw [ho, hrest.1]
      constructor
      · simp [clean_line, ho]
      · simp [clean_line, ho, LogLine.isRecord, List.countP_cons, hrest.2]

/-- C5: applied to a session log whose non-blank lines all carry the four
retained keys, `convert_jsonl_to_json` yields an array with exactly one
object per non-blank line; each output object has exactly the keys
`messages`, `chosen`, `rejected`, `metadata`, with values copied from a log
line, and carries neither `timestamp` nor `session_id`. -/
theorem finalize_strips_session_fields (lines : List LogLine)
    (hvalid : ∀ kvs, LogLine.record kvs ∈ lines → (clean_pair kvs).isSome = true) :
    ∃ out, convert_jsonl_to_json lines = some out ∧
      out.length = lines.countP LogLine.isRecord ∧
      ∀ o ∈ out,
        o.map Prod.fst = ["messages", "chosen", "rejected", "metadata"] ∧
        jlookup o "timestamp" = none ∧
        jlookup o "session_id" = none ∧
        ∃ kvs, LogLine.record kvs ∈ lines ∧
          jlookup kvs "messages" = jlookup o "messages" ∧
          jlookup kvs "chosen" = jlookup o "chosen" ∧
          jlookup kvs "rejected" = jlookup o "rejected" ∧
          jlookup kvs "metadata" = jlookup o "metadata" := by
  obtain ⟨hconv, hlen⟩ := convert_of_valid lines hvalid
  refine ⟨lines.filterMap clean_line, hconv, hlen, ?_⟩
  intro o ho
  obtain ⟨l, hl, hcl⟩ := List.mem_filterMap.mp ho
  cases l with
  | blank => simp [clean_line] at hcl
  | record kvs =>
    rw [clean_line] at hcl
    obtain ⟨m, c, r, md, hm, hc, hr, hmd, hoeq⟩ := clean_pair_eq_some kvs o hcl
    subst hoeq
    refine ⟨rfl, rfl, rfl, kvs, hl, ?_, ?_, ?_, ?_⟩ <;>
      simp [jlookup, hm, hc, hr, hmd]

/-- C5 witness: a concrete two-line log (one record with all six keys, one
blank line) converts to a one-object array without the session fields. -/
theorem finalize_strips_session_fields_witness :
    ∃ out, convert_jsonl_to_json
        [LogLine.record [("messages", JVal.arr []), ("chosen", JVal.str "a"),
           ("rejected", JVal.str "b"), ("metadata", JVal.obj []),
           ("timestamp", JVal.str "t"), ("session_id", JVal.str "s")],
         LogLine.blank] = some out ∧
      out.length = 1 ∧
      ∀ o ∈ out, o.map Prod.fst = ["messages", "chosen", "rejected", "metadata"] := by
  obtain ⟨out, hconv, hlen, hobj⟩ := finalize_strips_session_fields
    [LogLine.record [("messages", JVal.arr []), ("chosen", JVal.str "a"),
       ("rejected", JVal.str "b"), ("metadata", JVal.obj []),
       ("timestamp", JVal.str "t"), ("session_id", JVal.str "s")],
     LogLine.blank]
    (by
      intro kvs hk
      simp only [List.mem_cons, List.not_mem_nil, or_false] at hk
      rcases hk with hk | hk
      · rw [LogLine.record.inj hk]
        rfl
      · exact LogLine.noConfusion hk)

  exact ⟨out, hconv, by simpa using hlen, fun o ho => (hobj o ho).1⟩

end DPOGen
